import Mathlib

/-!
Verification of the `resokerr` Result/MessageTrace core (`src/result.py`).

Python values are embedded shallowly: tuples and lists of traces become Lean
lists (with an explicit container-kind type where the tuple/list distinction
matters), `Dict[str, Any]` becomes an association list over a small universe
`PyVal` of Python runtime values, and `Optional[T]` becomes `Option T`.
All operations are pure, mirroring the frozen dataclasses of the source.
-/

/-- Universe of Python runtime values, as far as the core inspects them:
strings, ints, floats (no arithmetic is ever performed on them, so a rational
carrier is adequate), booleans, `None`, dicts, lists, tuples, and opaque
object instances identified by a tag. -/
inductive PyVal : Type where
  | str (s : String)
  | int (n : Int)
  | float (q : Rat)
  | bool (b : Bool)
  | none
  | dict (entries : List (String × PyVal))
  | list (elems : List PyVal)
  | tuple (elems : List PyVal)
  | obj (tag : Nat)

/-- A Python `Dict[str, Any]` as an association list. -/
abbrev PyDict : Type := List (String × PyVal)

/-- Exact runtime type of a `PyVal` (Python `type(v)`). -/
inductive PyRuntimeType : Type where
  | strType | intType | floatType | boolType | noneType
  | dictType | listType | tupleType | objType
deriving DecidableEq

/-- Exact runtime-type tag of a value. -/
def PyVal.runtimeType : PyVal → PyRuntimeType
  | .str _ => .strType
  | .int _ => .intType
  | .float _ => .floatType
  | .bool _ => .boolType
  | .none => .noneType
  | .dict _ => .dictType
  | .list _ => .listType
  | .tuple _ => .tupleType
  | .obj _ => .objType

/-- The severity enumeration exactly as defined in `src/result.py` lines
10-13: three members `INFO`, `WARNING`, `ERROR`. -/
inductive TraceSeverityLevel : Type where
  | INFO
  | WARNING
  | ERROR
deriving DecidableEq

/-- The `.value` attribute of each enum member (its wire string). -/
def TraceSeverityLevel.value : TraceSeverityLevel → String
  | .INFO => "info"
  | .WARNING => "warning"
  | .ERROR => "error"

/-- Source `MessageTrace` dataclass (`src/result.py` lines 15-22): immutable record
with a generic message payload, a severity, and optional code, details and
stack trace. -/
structure MessageTrace (M : Type) : Type where
  message : M
  severity : TraceSeverityLevel
  code : Option String
  details : Option PyDict
  stack_trace : Option String

/-- Factory `MessageTrace.info` (lines 24-29). -/
def MessageTrace.info {M : Type} (message : M) (code : Option String)
    (details : Option PyDict) (stack_trace : Option String) : MessageTrace M :=
  MessageTrace.mk message TraceSeverityLevel.INFO code details stack_trace

/-- Factory `MessageTrace.warning` (lines 31-36). -/
def MessageTrace.warning {M : Type} (message : M) (code : Option String)
    (details : Option PyDict) (stack_trace : Option String) : MessageTrace M :=
  MessageTrace.mk message TraceSeverityLevel.WARNING code details stack_trace

/-- Factory `MessageTrace.error` (lines 38-43). -/
def MessageTrace.error {M : Type} (message : M) (code : Option String)
    (details : Option PyDict) (stack_trace : Option String) : MessageTrace M :=
  MessageTrace.mk message TraceSeverityLevel.ERROR code details stack_trace

/-- Source `BaseMixinMessageCollector._get_messages_by_severity` (lines 67-71):
`tuple(message for message in self.messages if message.severity == severity)`.
The stored tuple of messages is modelled as a Lean list. -/
def get_messages_by_severity {M : Type} (messages : List (MessageTrace M))
    (severity : TraceSeverityLevel) : List (MessageTrace M) :=
  messages.filter (fun message => decide (message.severity = severity))

/-- The `Ok` frozen dataclass (lines 132-142); its `messages` tuple is a Lean
list (the constructor-time tuple coercion of `__post_init__` is modelled
separately with an explicit container type). -/
structure Ok (V M : Type) : Type where
  value : Option V
  messages : List (MessageTrace M)
  metadata : Option PyDict

/-- The `Err` frozen dataclass (lines 176-187). -/
structure Err (E M : Type) : Type where
  trace : Option E
  messages : List (MessageTrace M)
  metadata : Option PyDict

/-- Source `InfoCollectorMixin.info_messages` as inherited by `Ok`. -/
def Ok.info_messages {V M : Type} (r : Ok V M) : List (MessageTrace M) :=
  get_messages_by_severity r.messages TraceSeverityLevel.INFO

/-- Source `WarningCollectorMixin.warning_messages` as inherited by `Ok`. -/
def Ok.warning_messages {V M : Type} (r : Ok V M) : List (MessageTrace M) :=
  get_messages_by_severity r.messages TraceSeverityLevel.WARNING

/-- Source `InfoCollectorMixin.has_info`: `len(self.info_messages) > 0`. -/
def Ok.has_info {V M : Type} (r : Ok V M) : Bool :=
  decide (0 < r.info_messages.length)

/-- Source `WarningCollectorMixin.has_warnings`: `len(self.warning_messages) > 0`. -/
def Ok.has_warnings {V M : Type} (r : Ok V M) : Bool :=
  decide (0 < r.warning_messages.length)

/-- Source `InfoCollectorMixin.info_messages` as inherited by `Err`. -/
def Err.info_messages {E M : Type} (r : Err E M) : List (MessageTrace M) :=
  get_messages_by_severity r.messages TraceSeverityLevel.INFO

/-- Source `WarningCollectorMixin.warning_messages` as inherited by `Err`. -/
def Err.warning_messages {E M : Type} (r : Err E M) : List (MessageTrace M) :=
  get_messages_by_severity r.messages TraceSeverityLevel.WARNING

/-- Source `ErrorCollectorMixin.error_messages` as inherited by `Err`. -/
def Err.error_messages {E M : Type} (r : Err E M) : List (MessageTrace M) :=
  get_messages_by_severity r.messages TraceSeverityLevel.ERROR

/-- Source `InfoCollectorMixin.has_info` on `Err`. -/
def Err.has_info {E M : Type} (r : Err E M) : Bool :=
  decide (0 < r.info_messages.length)

/-- Source `WarningCollectorMixin.has_warnings` on `Err`. -/
def Err.has_warnings {E M : Type} (r : Err E M) : Bool :=
  decide (0 < r.warning_messages.length)

/-- Source `ErrorCollectorMixin.has_errors` on `Err`. -/
def Err.has_errors {E M : Type} (r : Err E M) : Bool :=
  decide (0 < r.error_messages.length)

/-- Source `Ok.with_info` (lines 154-163): append a fresh info trace, keep value and
metadata. -/
def Ok.with_info {V M : Type} (r : Ok V M) (message : M) (code : Option String)
    (details : Option PyDict) (stack_trace : Option String) : Ok V M :=
  Ok.mk r.value (r.messages ++ [MessageTrace.info message code details stack_trace]) r.metadata

/-- Source `Ok.with_warning` (lines 165-174). -/
def Ok.with_warning {V M : Type} (r : Ok V M) (message : M) (code : Option String)
    (details : Option PyDict) (stack_trace : Option String) : Ok V M :=
  Ok.mk r.value (r.messages ++ [MessageTrace.warning message code details stack_trace]) r.metadata

/-- Source `Err.with_error` (lines 199-208). -/
def Err.with_error {E M : Type} (r : Err E M) (message : M) (code : Option String)
    (details : Option PyDict) (stack_trace : Option String) : Err E M :=
  Err.mk r.trace (r.messages ++ [MessageTrace.error message code details stack_trace]) r.metadata

/-- Source `Err.with_info` (lines 210-219). -/
def Err.with_info {E M : Type} (r : Err E M) (message : M) (code : Option String)
    (details : Option PyDict) (stack_trace : Option String) : Err E M :=
  Err.mk r.trace (r.messages ++ [MessageTrace.info message code details stack_trace]) r.metadata

/-- Source `Err.with_warning` (lines 221-230). -/
def Err.with_warning {E M : Type} (r : Err E M) (message : M) (code : Option String)
    (details : Option PyDict) (stack_trace : Option String) : Err E M :=
  Err.mk r.trace (r.messages ++ [MessageTrace.warning message code details stack_trace]) r.metadata

/-- C1: every append operation (`with_info` and `with_warning` on both
variants, `with_error` on `Err`) returns a new Result of the same variant
whose `messages` is the `messages` of the receiver with exactly one new trace of
the corresponding severity appended at the end, with `value`/`trace` and
`metadata` identical to those of the receiver. The embedding is pure, so the
receiver itself is unchanged by construction. -/
theorem c1_with_ops_append_and_preserve {V E M : Type}
    (r : Ok V M) (e : Err E M) (m : M) (c : Option String)
    (d : Option PyDict) (st : Option String) :
    ((r.with_info m c d st).messages
        = r.messages ++ [MessageTrace.info m c d st]
      ∧ (r.with_info m c d st).value = r.value
      ∧ (r.with_info m c d st).metadata = r.metadata
      ∧ (MessageTrace.info m c d st).severity = TraceSeverityLevel.INFO)
  ∧ ((r.with_warning m c d st).messages
        = r.messages ++ [MessageTrace.warning m c d st]
      ∧ (r.with_warning m c d st).value = r.value
      ∧ (r.with_warning m c d st).metadata = r.metadata
      ∧ (MessageTrace.warning m c d st).severity = TraceSeverityLevel.WARNING)
  ∧ ((e.with_info m c d st).messages
        = e.messages ++ [MessageTrace.info m c d st]
      ∧ (e.with_info m c d st).trace = e.trace
      ∧ (e.with_info m c d st).metadata = e.metadata)
  ∧ ((e.with_warning m c d st).messages
        = e.messages ++ [MessageTrace.warning m c d st]
      ∧ (e.with_warning m c d st).trace = e.trace
      ∧ (e.with_warning m c d st).metadata = e.metadata)
  ∧ ((e.with_error m c d st).messages
        = e.messages ++ [MessageTrace.error m c d st]
      ∧ (e.with_error m c d st).trace = e.trace
      ∧ (e.with_error m c d st).metadata = e.metadata
      ∧ (MessageTrace.error m c d st).severity = TraceSeverityLevel.ERROR) :=
  ⟨⟨rfl, rfl, rfl, rfl⟩, ⟨rfl, rfl, rfl, rfl⟩,
   ⟨rfl, rfl, rfl⟩, ⟨rfl, rfl, rfl⟩, ⟨rfl, rfl, rfl, rfl⟩⟩

/-- Exact runtime class tags relevant to status discrimination: the `Ok` and
`Err` classes themselves, strict subclasses of each, and unrelated classes. -/
inductive PyType : Type where
  | okType
  | errType
  | okSubclassType
  | errSubclassType
  | plainType
deriving DecidableEq

/-- A runtime value as seen by `StatusMixin`: a genuine `Ok` or `Err`
instance, an instance of a strict subclass of either (same structure,
different exact class), or an unrelated look-alike object that merely carries
`is_ok`/`is_err`-shaped attributes. -/
inductive RuntimeVal (V E M : Type) : Type where
  | okVal (r : Ok V M)
  | errVal (e : Err E M)
  | okSubVal (r : Ok V M)
  | errSubVal (e : Err E M)
  | lookAlikeVal (isOkAttr isErrAttr : Bool)

/-- Python `type(self)`: the exact class of the instance (a subclass
instance has its own class, not that of its parent). -/
def RuntimeVal.typeOf {V E M : Type} : RuntimeVal V E M → PyType
  | .okVal _ => .okType
  | .errVal _ => .errType
  | .okSubVal _ => .okSubclassType
  | .errSubVal _ => .errSubclassType
  | .lookAlikeVal _ _ => .plainType

/-- Source `StatusMixin.is_ok` (lines 122-125): `type(self) is Ok`. -/
def RuntimeVal.is_ok {V E M : Type} (v : RuntimeVal V E M) : Bool :=
  decide (v.typeOf = PyType.okType)

/-- Source `StatusMixin.is_err` (lines 127-130): `type(self) is Err`. -/
def RuntimeVal.is_err {V E M : Type} (v : RuntimeVal V E M) : Bool :=
  decide (v.typeOf = PyType.errType)

/-- C6: `is_ok` is true and `is_err` false on every `Ok` instance, the
converse on every `Err` instance, no value reports true for both, and
subclass instances and structural look-alikes are never classified as either
variant, whatever attributes they carry. -/
theorem c6_status_queries_exact {V E M : Type}
    (r : Ok V M) (e : Err E M) (b1 b2 : Bool) (v : RuntimeVal V E M) :
    (RuntimeVal.okVal r : RuntimeVal V E M).is_ok = true
  ∧ (RuntimeVal.okVal r : RuntimeVal V E M).is_err = false
  ∧ (RuntimeVal.errVal e : RuntimeVal V E M).is_err = true
  ∧ (RuntimeVal.errVal e : RuntimeVal V E M).is_ok = false
  ∧ (v.is_ok && v.is_err) = false
  ∧ (RuntimeVal.okSubVal r : RuntimeVal V E M).is_ok = false
  ∧ (RuntimeVal.okSubVal r : RuntimeVal V E M).is_err = false
  ∧ (RuntimeVal.errSubVal e : RuntimeVal V E M).is_err = false
  ∧ (RuntimeVal.errSubVal e : RuntimeVal V E M).is_ok = false
  ∧ (RuntimeVal.lookAlikeVal b1 b2 : RuntimeVal V E M).is_ok = false
  ∧ (RuntimeVal.lookAlikeVal b1 b2 : RuntimeVal V E M).is_err = false := by
  refine ⟨rfl, rfl, rfl, rfl, ?_, rfl, rfl, rfl, rfl, rfl, rfl⟩
  cases v <;> rfl

/-- A Python ordered sequence together with its container kind: either a
tuple or a (mutable) list holding the same elements. -/
inductive PySeq (A : Type) : Type where
  | tupleSeq (elems : List A)
  | listSeq (elems : List A)

/-- Python `isinstance(s, tuple)`. -/
def PySeq.isTuple {A : Type} : PySeq A → Bool
  | .tupleSeq _ => true
  | .listSeq _ => false

/-- The elements of the sequence, in order. -/
def PySeq.elems {A : Type} : PySeq A → List A
  | .tupleSeq l => l
  | .listSeq l => l

/-- Source `Ok.__post_init__` (lines 144-148): if the supplied `messages` is not a
tuple, replace it with `tuple(self.messages)`. -/
def Ok.post_init_messages {A : Type} (messages : PySeq A) : PySeq A :=
  if messages.isTuple then messages else PySeq.tupleSeq messages.elems

/-- Source `Err.__post_init__` (lines 189-193): identical coercion on `Err`. -/
def Err.post_init_messages {A : Type} (messages : PySeq A) : PySeq A :=
  if messages.isTuple then messages else PySeq.tupleSeq messages.elems

/-- Constructing an `Ok` from an arbitrary sequence: the dataclass `__init__`
stores the field and `__post_init__` normalises it; the record then holds the
normalised elements. -/
def Ok.construct {V M : Type} (value : Option V)
    (messages : PySeq (MessageTrace M)) (metadata : Option PyDict) : Ok V M :=
  Ok.mk value (Ok.post_init_messages messages).elems metadata

/-- Constructing an `Err` from an arbitrary sequence, likewise. -/
def Err.construct {E M : Type} (trace : Option E)
    (messages : PySeq (MessageTrace M)) (metadata : Option PyDict) : Err E M :=
  Err.mk trace (Err.post_init_messages messages).elems metadata

/-- C9: for any supplied sequence of traces, tuple or list, the constructor
`__post_init__` normalisation yields a tuple with exactly the supplied
elements in order, so the stored `messages` field is always a tuple equal
element-wise to the input. -/
theorem c9_constructor_coerces_to_tuple {A V E M : Type}
    (s : PySeq A) (t : PySeq (MessageTrace M)) (v : Option V) (e : Option E)
    (md : Option PyDict) :
    (Ok.post_init_messages s).isTuple = true
  ∧ (Ok.post_init_messages s).elems = s.elems
  ∧ (Err.post_init_messages s).isTuple = true
  ∧ (Err.post_init_messages s).elems = s.elems
  ∧ (Ok.construct v t md).messages = t.elems
  ∧ (Err.construct e t md).messages = t.elems := by
  refine ⟨?_, ?_, ?_, ?_, ?_, ?_⟩ <;>
    cases s <;> cases t <;>
      simp [Ok.post_init_messages, Err.post_init_messages, Ok.construct,
        Err.construct, PySeq.isTuple, PySeq.elems]

/-- Membership in a severity filter: exactly the messages of that severity. -/
theorem mem_get_messages_by_severity {M : Type} (l : List (MessageTrace M))
    (s : TraceSeverityLevel) (m : MessageTrace M) :
    m ∈ get_messages_by_severity l s ↔ m ∈ l ∧ m.severity = s := by
  simp [get_messages_by_severity, List.mem_filter]

/-- A severity filter is a sublist of the original message sequence, hence
preserves the original relative order. -/
theorem get_messages_by_severity_sublist {M : Type} (l : List (MessageTrace M))
    (s : TraceSeverityLevel) :
    (get_messages_by_severity l s).Sublist l :=
  List.filter_sublist l

/-- The non-empty test `len(xs) > 0` agrees with list non-emptiness. -/
theorem length_pos_decide_iff {M : Type} (l : List (MessageTrace M)) :
    decide (0 < l.length) = true ↔ l ≠ [] := by
  simp [List.length_pos]

/-- C7: each severity accessor returns exactly the messages of that severity
(membership characterisation), as a sublist of `messages` (so in the original
relative order), and each `has_*` predicate holds iff the corresponding
filtered sequence is non-empty — for `info`/`warning` on `Ok` and
`info`/`warning`/`error` on `Err`. -/
theorem c7_filters_exact_ordered_has {V E M : Type}
    (r : Ok V M) (e : Err E M) (m : MessageTrace M) :
    (m ∈ r.info_messages ↔ m ∈ r.messages ∧ m.severity = TraceSeverityLevel.INFO)
  ∧ (m ∈ r.warning_messages ↔ m ∈ r.messages ∧ m.severity = TraceSeverityLevel.WARNING)
  ∧ (m ∈ e.info_messages ↔ m ∈ e.messages ∧ m.severity = TraceSeverityLevel.INFO)
  ∧ (m ∈ e.warning_messages ↔ m ∈ e.messages ∧ m.severity = TraceSeverityLevel.WARNING)
  ∧ (m ∈ e.error_messages ↔ m ∈ e.messages ∧ m.severity = TraceSeverityLevel.ERROR)
  ∧ r.info_messages.Sublist r.messages
  ∧ r.warning_messages.Sublist r.messages
  ∧ e.info_messages.Sublist e.messages
  ∧ e.warning_messages.Sublist e.messages
  ∧ e.error_messages.Sublist e.messages
  ∧ (r.has_info = true ↔ r.info_messages ≠ [])
  ∧ (r.has_warnings = true ↔ r.warning_messages ≠ [])
  ∧ (e.has_info = true ↔ e.info_messages ≠ [])
  ∧ (e.has_warnings = true ↔ e.warning_messages ≠ [])
  ∧ (e.has_errors = true ↔ e.error_messages ≠ []) :=
  ⟨mem_get_messages_by_severity _ _ _, mem_get_messages_by_severity _ _ _,
   mem_get_messages_by_severity _ _ _, mem_get_messages_by_severity _ _ _,
   mem_get_messages_by_severity _ _ _,
   get_messages_by_severity_sublist _ _, get_messages_by_severity_sublist _ _,
   get_messages_by_severity_sublist _ _, get_messages_by_severity_sublist _ _,
   get_messages_by_severity_sublist _ _,
   length_pos_decide_iff _, length_pos_decide_iff _, length_pos_decide_iff _,
   length_pos_decide_iff _, length_pos_decide_iff _⟩

/-- A sample ok result carrying one info trace, for concrete instantiation. -/
def okSample : Ok Nat String :=
  Ok.mk (some 1) [MessageTrace.info "step" none none none] none

/-- A sample err result carrying one error trace then one info trace. -/
def errSample : Err String String :=
  Err.mk (some "boom")
    [MessageTrace.error "failed" none none none,
     MessageTrace.info "received" none none none] none

/-- C7 witness: the characterisation instantiated on a concrete `Ok`, `Err`
and trace, with the biconditionals discharged concretely. -/
theorem c7_filters_exact_ordered_has_witness :
    MessageTrace.info "step" none none none ∈ okSample.info_messages
  ∧ okSample.has_info = true :=
  ⟨((c7_filters_exact_ordered_has okSample errSample
        (MessageTrace.info "step" none none none)).1).mpr
      ⟨List.mem_singleton.mpr rfl, rfl⟩,
   ((c7_filters_exact_ordered_has okSample errSample
        (MessageTrace.info "step" none none none)).2.2.2.2.2.2.2.2.2.2.1).mpr
      (by simp [okSample, Ok.info_messages, get_messages_by_severity,
            MessageTrace.info])⟩

/-- The three severity filters cover every message exactly once in length:
the enumeration has no fourth member for a message to hide under. -/
theorem severity_filter_length_sum {M : Type} (l : List (MessageTrace M)) :
    (get_messages_by_severity l TraceSeverityLevel.INFO).length
      + (get_messages_by_severity l TraceSeverityLevel.WARNING).length
      + (get_messages_by_severity l TraceSeverityLevel.ERROR).length
      = l.length := by
  induction l with
  | nil => rfl
  | cons m t ih =>
      cases hm : m.severity <;>
        simp [get_messages_by_severity, List.filter_cons, hm] at ih ⊢ <;>
          omega

/-- C10: on every `Err`, the filtered sequences `info_messages`,
`warning_messages` and `error_messages` partition `messages`: their lengths
sum to the length of `messages`, and every message of the result belongs to
exactly one of the three. (Every trace severity is a member of the closed
three-element enumeration, so the hypothesis of the claim is automatic in the
embedding.) -/
theorem c10_err_severity_partition {E M : Type} (e : Err E M) :
    e.info_messages.length + e.warning_messages.length
        + e.error_messages.length = e.messages.length
  ∧ ∀ m ∈ e.messages,
      (m ∈ e.info_messages ∧ m ∉ e.warning_messages ∧ m ∉ e.error_messages)
    ∨ (m ∉ e.info_messages ∧ m ∈ e.warning_messages ∧ m ∉ e.error_messages)
    ∨ (m ∉ e.info_messages ∧ m ∉ e.warning_messages ∧ m ∈ e.error_messages) := by
  constructor
  · exact severity_filter_length_sum e.messages
  · intro m hm
    have hi := mem_get_messages_by_severity e.messages TraceSeverityLevel.INFO m
    have hw := mem_get_messages_by_severity e.messages TraceSeverityLevel.WARNING m
    have he := mem_get_messages_by_severity e.messages TraceSeverityLevel.ERROR m
    cases hs : m.severity with
    | INFO =>
        exact Or.inl ⟨hi.mpr ⟨hm, hs⟩,
          fun h => by simpa [hs] using (hw.mp h).2,
          fun h => by simpa [hs] using (he.mp h).2⟩
    | WARNING =>
        exact Or.inr (Or.inl ⟨fun h => by simpa [hs] using (hi.mp h).2,
          hw.mpr ⟨hm, hs⟩,
          fun h => by simpa [hs] using (he.mp h).2⟩)
    | ERROR =>
        exact Or.inr (Or.inr ⟨fun h => by simpa [hs] using (hi.mp h).2,
          fun h => by simpa [hs] using (hw.mp h).2,
          he.mpr ⟨hm, hs⟩⟩)

/-- C10 witness: the partition instantiated on the concrete sample `Err`,
with the membership hypothesis discharged on its first message. -/
theorem c10_err_severity_partition_witness :
    (errSample.info_messages.length + errSample.warning_messages.length
        + errSample.error_messages.length = errSample.messages.length)
  ∧ ((MessageTrace.error "failed" none none none ∈ errSample.info_messages
        ∧ MessageTrace.error "failed" none none none ∉ errSample.warning_messages
        ∧ MessageTrace.error "failed" none none none ∉ errSample.error_messages)
    ∨ (MessageTrace.error "failed" none none none ∉ errSample.info_messages
        ∧ MessageTrace.error "failed" none none none ∈ errSample.warning_messages
        ∧ MessageTrace.error "failed" none none none ∉ errSample.error_messages)
    ∨ (MessageTrace.error "failed" none none none ∉ errSample.info_messages
        ∧ MessageTrace.error "failed" none none none ∉ errSample.warning_messages
        ∧ MessageTrace.error "failed" none none none ∈ errSample.error_messages)) :=
  ⟨(c10_err_severity_partition errSample).1,
   (c10_err_severity_partition errSample).2
     (MessageTrace.error "failed" none none none)
     (List.mem_cons_self _ _)⟩

/-- A heap of Python dict objects; a reference is an index into the heap.
Mutable aliasing of `details` is the one place the pure embedding needs an
explicit store. -/
abbrev Heap : Type := List PyDict

/-- Python `d[k] = v` on a dict object: update the entry if the key exists,
append it otherwise. -/
def dictSetKey (d : PyDict) (k : String) (v : PyVal) : PyDict :=
  if (d.map Prod.fst).contains k then
    d.map (fun p => if p.1 = k then (k, v) else p)
  else d ++ [(k, v)]

/-- In-place mutation `h[r][k] = v` of the dict object at reference `r`. -/
def Heap.setKey (h : Heap) (r : Nat) (k : String) (v : PyVal) : Heap :=
  h.set r (dictSetKey (h.getD r []) k v)

/-- Source `MessageTrace` as actually constructed by the source (lines 15-22): the
frozen dataclass stores the `details` argument exactly as supplied — a
reference to the caller-owned dict object, with no defensive copy. The payload is
fixed to `PyVal` here since only the aliasing of `details` is at issue. -/
structure MessageTraceRef : Type where
  message : PyVal
  severity : TraceSeverityLevel
  code : Option String
  detailsRef : Option Nat
  stack_trace : Option String

/-- The generated dataclass `__init__` of `MessageTrace`: every argument is
stored verbatim; there is no `__post_init__` and no copying of `details`. -/
def MessageTraceRef.construct (message : PyVal) (severity : TraceSeverityLevel)
    (code : Option String) (detailsRef : Option Nat)
    (stack_trace : Option String) : MessageTraceRef :=
  MessageTraceRef.mk message severity code detailsRef stack_trace

/-- The `details` contents observable on the trace under heap `h`. -/
def MessageTraceRef.observed_details (t : MessageTraceRef) (h : Heap) :
    Option PyDict :=
  t.detailsRef.bind (fun r => h[r]?)

/-- C2 evidence: construct a `MessageTrace` with a caller-owned mutable dict
`{"key": "value"}` (heap cell 0), then mutate the caller-owned dict to
`{"key": "modified"}`. The details observed on the stored trace change with
the mutation — the constructor of `src/result.py` takes no defensive
snapshot, contradicting the repository test
`test_details_converted_to_mapping_proxy`. -/
theorem c2_details_mutation_is_observed :
    (MessageTraceRef.construct (PyVal.str "Test") TraceSeverityLevel.INFO
        none (some 0) none).observed_details [[("key", PyVal.str "value")]]
      = some [("key", PyVal.str "value")]
  ∧ (MessageTraceRef.construct (PyVal.str "Test") TraceSeverityLevel.INFO
        none (some 0) none).observed_details
        (Heap.setKey [[("key", PyVal.str "value")]] 0 "key" (PyVal.str "modified"))
      = some [("key", PyVal.str "modified")]
  ∧ (("modified" : String) == "value") = false := by
  refine ⟨rfl, ?_, by decide⟩
  simp [MessageTraceRef.construct, MessageTraceRef.observed_details,
    Heap.setKey, dictSetKey]

/-- C3 evidence: the severity enumeration of `src/result.py` has exactly the
three members `INFO`, `WARNING`, `ERROR` with lowercase wire values, and none
of them has the wire value `"success"` — there is no fourth `Success`
variant, although the repository test `test_severity_level_values`
asserts `TraceSeverityLevel.SUCCESS.value == "success"`. -/
theorem c3_severity_enum_lacks_success :
    (∀ s : TraceSeverityLevel,
        s ∈ [TraceSeverityLevel.INFO, TraceSeverityLevel.WARNING,
             TraceSeverityLevel.ERROR])
  ∧ TraceSeverityLevel.INFO.value = "info"
  ∧ TraceSeverityLevel.WARNING.value = "warning"
  ∧ TraceSeverityLevel.ERROR.value = "error"
  ∧ (TraceSeverityLevel.INFO.value == "success") = false
  ∧ (TraceSeverityLevel.WARNING.value == "success") = false
  ∧ (TraceSeverityLevel.ERROR.value == "success") = false := by
  refine ⟨fun s => by cases s <;> simp, rfl, rfl, rfl, by decide, by decide,
    by decide⟩

/-- Modelled from the spec: `Validator.is_json_primitive` (the `Validator`
class is absent from `src/`; spec section 4.4). True iff the runtime type of the value is the runtime
type is exactly one of string, integer, floating-point, boolean, none,
mapping, or list-like ordered sequence; fixed-arity tuple-like values and
arbitrary object instances are excluded. -/
def Validator.is_json_primitive : PyVal → Bool
  | .str _ => true
  | .int _ => true
  | .float _ => true
  | .bool _ => true
  | .none => true
  | .dict _ => true
  | .list _ => true
  | .tuple _ => false
  | .obj _ => false

/-- C8: `is_json_primitive` agrees with exact runtime-type membership in the
seven JSON-primitive types on every value, and in particular accepts the
empty mapping, empty list, empty string, 0, 0.0, True and None while
rejecting tuple values and an arbitrary object instance. -/
theorem c8_is_json_primitive_classification :
    (∀ v : PyVal, Validator.is_json_primitive v
        = decide (v.runtimeType ∈
            [PyRuntimeType.strType, PyRuntimeType.intType,
             PyRuntimeType.floatType, PyRuntimeType.boolType,
             PyRuntimeType.noneType, PyRuntimeType.dictType,
             PyRuntimeType.listType]))
  ∧ Validator.is_json_primitive (PyVal.dict []) = true
  ∧ Validator.is_json_primitive (PyVal.list []) = true
  ∧ Validator.is_json_primitive (PyVal.str "") = true
  ∧ Validator.is_json_primitive (PyVal.int 0) = true
  ∧ Validator.is_json_primitive (PyVal.float 0) = true
  ∧ Validator.is_json_primitive (PyVal.bool true) = true
  ∧ Validator.is_json_primitive PyVal.none = true
  ∧ Validator.is_json_primitive (PyVal.tuple []) = false
  ∧ Validator.is_json_primitive (PyVal.tuple [PyVal.int 1, PyVal.int 2]) = false
  ∧ Validator.is_json_primitive (PyVal.obj 0) = false := by
  refine ⟨fun v => ?_, rfl, rfl, rfl, rfl, rfl, rfl, rfl, rfl, rfl, rfl⟩
  cases v <;> rfl

/-- Modelled from the spec: an arbitrary message payload as seen by the
serialization algorithm (spec section 4.3; the serializer is absent from
`src/`): whether it exposes the zero-argument to-plain-structure capability
(and what invoking it returns), the runtime value of the payload for primitive
classification, and its human-readable string representation. -/
structure Payload : Type where
  to_dict_cap : Option PyVal
  val : PyVal
  str_rep : String

/-- Modelled from the spec: the serialization precedence of section 4.3,
checked in order with first match winning — capability result used as-is,
else a JSON primitive used as-is, else the string representation. -/
def serialize_message (p : Payload) : PyVal :=
  match p.to_dict_cap with
  | some d => d
  | none =>
      if Validator.is_json_primitive p.val then p.val
      else PyVal.str p.str_rep

/-- C5: the serialization precedence, first match wins: a payload exposing
the to-plain-structure capability serializes to the result of that capability
as-is (never the string fallback); otherwise a JSON primitive is used as-is;
otherwise the string representation is used. -/
theorem c5_serialize_precedence (p : Payload) :
    (∀ d, p.to_dict_cap = some d → serialize_message p = d)
  ∧ (p.to_dict_cap = none → Validator.is_json_primitive p.val = true →
      serialize_message p = p.val)
  ∧ (p.to_dict_cap = none → Validator.is_json_primitive p.val = false →
      serialize_message p = PyVal.str p.str_rep) := by
  refine ⟨?_, ?_, ?_⟩
  · intro d hd
    simp [serialize_message, hd]
  · intro hn hp
    simp [serialize_message, hn, hp]
  · intro hn hp
    simp [serialize_message, hn, hp]

/-- C5 witness: scenario B — a payload exposing the capability returning
`{"code": "E001"}` serializes to that mapping, not to its string
representation; a payload with neither capability nor primitive
classification serializes to its string representation. -/
theorem c5_serialize_precedence_witness :
    serialize_message
        (Payload.mk (some (PyVal.dict [("code", PyVal.str "E001")]))
          (PyVal.obj 0) "object repr")
      = PyVal.dict [("code", PyVal.str "E001")]
  ∧ serialize_message (Payload.mk none (PyVal.obj 0) "object repr")
      = PyVal.str "object repr" :=
  ⟨(c5_serialize_precedence _).1 _ rfl,
   (c5_serialize_precedence _).2.2 rfl rfl⟩

/-- Python `k in d` key test on a dict. -/
def hasKey (d : PyDict) (k : String) : Bool :=
  d.any (fun p => p.1 == k)

/-- Modelled from the spec: `MessageTrace.to_dict` (absent from `src/`; spec
sections 4.1-4.2): a mapping with `message` (serialized per the precedence
algorithm) and `severity` (wire string) always present, and `code`,
`details` (as a plain mapping) and `stack_trace` included exactly when the
corresponding field is present — omitted keys, not null-valued keys. -/
def MessageTrace.to_dict (t : MessageTrace Payload) : PyDict :=
  [("message", serialize_message t.message),
   ("severity", PyVal.str t.severity.value)]
  ++ (match t.code with
      | some c => [("code", PyVal.str c)]
      | none => [])
  ++ (match t.details with
      | some d => [("details", PyVal.dict d)]
      | none => [])
  ++ (match t.stack_trace with
      | some s => [("stack_trace", PyVal.str s)]
      | none => [])

/-- Modelled from the spec: each `to_dict` call converts the stored details
snapshot into a fresh plain mutable mapping, never aliasing a previously
returned one; the allocation of that fresh dict object is made explicit
against a heap. Returns the reference to the newly allocated copy (when
`details` is present) together with the grown heap. -/
def to_dict_details_alloc (t : MessageTrace Payload) (h : Heap) :
    Option Nat × Heap :=
  match t.details with
  | some d => (some h.length, h ++ [d])
  | none => (none, h)

/-- Reading the cell just appended to a heap. -/
theorem heap_get_concat (h : Heap) (d : PyDict) :
    (h ++ [d])[h.length]? = some d := by
  induction h with
  | nil => rfl
  | cons x t ih => simp [ih]

/-- Appending cells does not change reads below the old length. -/
theorem heap_get_append_left (h h2 : Heap) (n : Nat) (hn : n < h.length) :
    (h ++ h2)[n]? = h[n]? := by
  induction h generalizing n with
  | nil => cases hn
  | cons x t ih =>
      cases n with
      | zero => simp
      | succ k => simpa using ih k (Nat.lt_of_succ_lt_succ hn)

/-- C4: `to_dict` always contains the `message` and `severity` keys, contains
each of `code`, `details`, `stack_trace` exactly when the corresponding field
is present, and two successive calls allocate distinct fresh `details`
mappings with equal contents (equal but non-aliased structures). -/
theorem c4_to_dict_keys_and_freshness :
    (∀ t : MessageTrace Payload,
        hasKey t.to_dict "message" = true
      ∧ hasKey t.to_dict "severity" = true
      ∧ hasKey t.to_dict "code" = t.code.isSome
      ∧ hasKey t.to_dict "details" = t.details.isSome
      ∧ hasKey t.to_dict "stack_trace" = t.stack_trace.isSome)
  ∧ (∀ (t : MessageTrace Payload) (h : Heap) (d : PyDict),
      t.details = some d →
        (to_dict_details_alloc t h).1
            ≠ (to_dict_details_alloc t (to_dict_details_alloc t h).2).1
      ∧ (∃ r1 r2,
            (to_dict_details_alloc t h).1 = some r1
          ∧ (to_dict_details_alloc t (to_dict_details_alloc t h).2).1 = some r2
          ∧ (to_dict_details_alloc t (to_dict_details_alloc t h).2).2[r1]?
              = some d
          ∧ (to_dict_details_alloc t (to_dict_details_alloc t h).2).2[r2]?
              = some d)) := by
  constructor
  · intro t
    obtain ⟨m, s, c, dt, st⟩ := t
    cases c <;> cases dt <;> cases st <;>
      exact ⟨rfl, rfl, rfl, rfl, rfl⟩
  · intro t h d hd
    obtain ⟨m, s, c, dt, st⟩ := t
    cases dt with
    | none => exact absurd hd (by simp)
    | some d0 =>
        have hdd : d0 = d := by simpa using hd
        subst hdd
        refine ⟨by simp [to_dict_details_alloc],
          h.length, (h ++ [d0]).length, rfl, rfl, ?_, ?_⟩
        · show ((h ++ [d0]) ++ [d0])[h.length]? = some d0
          rw [heap_get_append_left (h ++ [d0]) [d0] h.length (by simp)]
          exact heap_get_concat h d0
        · exact heap_get_concat (h ++ [d0]) d0

/-- C4 witness: the key-presence facts and the freshness of the two allocated
details copies, instantiated on a concrete trace with details
`{"field": "optional"}` against the empty heap. -/
theorem c4_to_dict_keys_and_freshness_witness :
    (hasKey (MessageTrace.mk (Payload.mk none (PyVal.str "m") "m")
        TraceSeverityLevel.WARNING none (some [("field", PyVal.str "optional")])
        none).to_dict "details" = true)
  ∧ ((to_dict_details_alloc (MessageTrace.mk (Payload.mk none (PyVal.str "m") "m")
        TraceSeverityLevel.WARNING none (some [("field", PyVal.str "optional")])
        none) []).1
      ≠ (to_dict_details_alloc (MessageTrace.mk (Payload.mk none (PyVal.str "m") "m")
          TraceSeverityLevel.WARNING none (some [("field", PyVal.str "optional")])
          none)
          (to_dict_details_alloc (MessageTrace.mk (Payload.mk none (PyVal.str "m") "m")
            TraceSeverityLevel.WARNING none (some [("field", PyVal.str "optional")])
            none) []).2).1) :=
  ⟨((c4_to_dict_keys_and_freshness.1
      (MessageTrace.mk (Payload.mk none (PyVal.str "m") "m")
        TraceSeverityLevel.WARNING none (some [("field", PyVal.str "optional")])
        none)).2.2.2.1),
   (c4_to_dict_keys_and_freshness.2
      (MessageTrace.mk (Payload.mk none (PyVal.str "m") "m")
        TraceSeverityLevel.WARNING none (some [("field", PyVal.str "optional")])
        none) [] [("field", PyVal.str "optional")] rfl).1⟩
